import Mathlib

/-!
Shallow embedding of the parsebot repository (src/chatbot_functions.py and
src/app.py) in Lean 4, with theorems settling the frozen claims about it.

External collaborators (the FAISS vector store, the RetrievalQA chain, the
extraction libraries) are modelled as abstract function-valued parameters;
every piece of control flow written in the repository itself is translated
directly from the Python source.
-/

/-- Mirrors `langchain.docstore.document.Document`: a text block plus the
`source` entry of its metadata dictionary, as built in `process_pdf`,
`process_website` and `process_word_document`. -/
structure Doc where
  page_content : String
  source : String
  deriving DecidableEq, Repr

/-- Result dictionary of `qa_chain.invoke`; `rag_pipeline` reads its
`result` entry (`response['result']`). -/
structure QAResponse where
  result : String
  deriving DecidableEq, Repr

/-- Model of the `RetrievalQA` chain object built by
`initialize_rag_pipeline`. Its `invoke` method receives the input
dictionary (modelled as an association list of string keys and values,
exactly the payload the caller constructs) and either returns a response
dictionary or raises (modelled as `Except.error`). The retrieval the chain
performs internally via `vectorstore.as_retriever()` is inside this opaque
callable, as it is in the source. -/
structure QAChain where
  invoke : List (String × String) → Except String QAResponse

/-- Model of the FAISS vector store: `similarity_search_with_score(query, k)`
returns a list of scored documents. Scores are opaque (they are never
inspected by the repository code beyond list emptiness), so they are
modelled as integers. -/
structure VectorStore where
  similarity_search_with_score : String → Nat → List (Doc × Int)

/-- Python `str.strip()` with no arguments: drop leading and trailing
whitespace characters. Written structurally over the character list so
that concrete instances evaluate. -/
def py_strip (s : String) : String :=
  ⟨((s.data.dropWhile Char.isWhitespace).reverse.dropWhile Char.isWhitespace).reverse⟩

/-- Python `str.endswith(suffix)`, written structurally over the character
lists. -/
def py_ends_with (s suffix : String) : Bool :=
  suffix.data.isSuffixOf s.data

/-- Python `str.startswith(pre)`, written structurally over the character
lists. -/
def py_starts_with (s pre : String) : Bool :=
  pre.data.isPrefixOf s.data

/-- The fixed fallback sentence returned by `rag_pipeline` on empty
retrieval (src/chatbot_functions.py line 149). -/
def fallback_sentence : String := "I don't have enough information to answer that question."

/-- Translation of `rag_pipeline` (src/chatbot_functions.py lines 145-152):
run `similarity_search_with_score(query, k=3)`; if the result list is
empty return the fallback sentence; otherwise compute the (unused) local
`context` string and call `qa_chain.invoke` with the dictionary holding
the single key `query`, returning the `result` entry of the response, or
propagating the error the chain raised. -/
def rag_pipeline (query : String) (qa_chain : QAChain) (vectorstore : VectorStore) :
    Except String String :=
  let relevant_docs := vectorstore.similarity_search_with_score query 3
  if relevant_docs.isEmpty then
    Except.ok fallback_sentence
  else
    let context := String.intercalate "\n\n" (relevant_docs.map (fun p => p.1.page_content))
    let _ := context
    match qa_chain.invoke [("query", query)] with
    | Except.ok response => Except.ok response.result
    | Except.error e => Except.error e

/-- Trace of the external calls `rag_pipeline` makes: the `(query, k)`
arguments of each `similarity_search_with_score` call and the input
dictionary of each `qa_chain.invoke` call. -/
structure RagTrace where
  search_calls : List (String × Nat)
  invoke_calls : List (List (String × String))
  deriving DecidableEq, Repr

/-- The same translation of `rag_pipeline`, instrumented to record the
external calls it performs. -/
def rag_pipeline_traced (query : String) (qa_chain : QAChain) (vectorstore : VectorStore) :
    Except String String × RagTrace :=
  let relevant_docs := vectorstore.similarity_search_with_score query 3
  if relevant_docs.isEmpty then
    (Except.ok fallback_sentence, ⟨[(query, 3)], []⟩)
  else
    match qa_chain.invoke [("query", query)] with
    | Except.ok response => (Except.ok response.result, ⟨[(query, 3)], [[("query", query)]]⟩)
    | Except.error e => (Except.error e, ⟨[(query, 3)], [[("query", query)]]⟩)

/-- Translation of `read_pdf` (src/chatbot_functions.py lines 32-39) over
the page texts the external PDF library extracts: keep the stripped text of
each page whose stripped text is non-empty. -/
def read_pdf (page_texts : List String) : List String :=
  (page_texts.map py_strip).filter (fun t => t != "")

/-- Translation of `read_word_document` (src/chatbot_functions.py lines
96-103) over the paragraph texts the external docx library extracts. -/
def read_word_document (paragraph_texts : List String) : List String :=
  (paragraph_texts.map py_strip).filter (fun t => t != "")

/-- Translation of `process_pdf` (src/chatbot_functions.py lines 41-48).
The external `CharacterTextSplitter.split_documents` call is an abstract
parameter `split_documents`; the repository only wraps the page texts into
documents and raises `ValueError` when no content was read. -/
def process_pdf (split_documents : List Doc → List Doc) (file_path : String)
    (page_texts : List String) : Except String (List Doc) :=
  let content := read_pdf page_texts
  if content.isEmpty then
    Except.error "No content could be read from the PDF file."
  else
    Except.ok (split_documents (content.map (fun text => { page_content := text, source := file_path })))

/-- Translation of `process_word_document` (src/chatbot_functions.py lines
105-112). -/
def process_word_document (split_documents : List Doc → List Doc) (file_path : String)
    (paragraph_texts : List String) : Except String (List Doc) :=
  let content := read_word_document paragraph_texts
  if content.isEmpty then
    Except.error "No content could be read from the Word document."
  else
    Except.ok (split_documents (content.map (fun text => { page_content := text, source := file_path })))

/-- Translation of `process_website` (src/chatbot_functions.py lines
86-93); `content` is the list returned by `scrape_website` (which already
strips and filters element texts, and returns an empty list on failure). -/
def process_website (split_documents : List Doc → List Doc) (url : String)
    (content : List String) : Except String (List Doc) :=
  if content.isEmpty then
    Except.error "No content could be fetched from the website."
  else
    Except.ok (split_documents (content.map (fun text => { page_content := text, source := url })))

/-- Translation of `initialize_rag_pipeline` (src/chatbot_functions.py
lines 115-143): build the vector store from the documents via the external
embedding service (which may raise), then build the `RetrievalQA` chain
over that same store. The chain construction itself is the external
`RetrievalQA.from_chain_type` call, abstracted as `make_retrieval_qa`. -/
def init_rag_pipeline (from_documents : List Doc → Except String VectorStore)
    (make_retrieval_qa : VectorStore → QAChain)
    (texts : List Doc) : Except String (QAChain × VectorStore) :=
  match from_documents texts with
  | Except.error e => Except.error e
  | Except.ok vectorstore => Except.ok (make_retrieval_qa vectorstore, vectorstore)

/-- Module-body check of src/chatbot_functions.py lines 26-28: the
`GOOGLE_API_KEY` environment variable is read; if it is absent or falsy
(the empty string) the module raises `ValueError` at import time, so none
of the functions defined below that line ever become available. -/
def google_api_key_check (env_value : Option String) : Except String Unit :=
  match env_value with
  | none => Except.error "Please set the GOOGLE_API_KEY in the .env file."
  | some key =>
    if key = "" then
      Except.error "Please set the GOOGLE_API_KEY in the .env file."
    else
      Except.ok ()

/-- The two module-level globals of src/app.py (lines 92-93): the session
is Ready exactly when both are set. -/
structure AppState where
  qa_pipeline : Option QAChain
  vectorstore : Option VectorStore

/-- Initial state of the app module: both globals are `None`. -/
def app_init_state : AppState := { qa_pipeline := none, vectorstore := none }

/-- Responses a handler can produce: a flash-plus-redirect to the index
page, a plain render of index.html, or a render carrying the query and the
answer (src/app.py line 162). -/
inductive Response where
  | redirect_index (flash : String)
  | render_index
  | render_answer (query answer : String)
  deriving DecidableEq, Repr

/-- The POST form of the index route: `request.form.get("url_or_file")`
and the filename of `request.files.get("file")` (`none` when no file part
was sent). -/
structure PostForm where
  url_or_file : Option String
  file : Option String
  deriving DecidableEq, Repr

/-- Common tail of both ingestion branches of `index` (src/app.py lines
117-127 and 135-139): bind the extraction result, bind
`initialize_rag_pipeline`, and only on full success assign the two globals
and flash success. A raised exception (an `Except.error`) propagates out
of the handler with the globals untouched, exactly as the tuple assignment
on lines 123/138 only happens after the right-hand side has returned. -/
def build_and_store (init_pipeline_fn : List Doc → Except String (QAChain × VectorStore))
    (st : AppState) (texts_result : Except String (List Doc)) :
    AppState × Except String Response :=
  match texts_result with
  | Except.error e => (st, Except.error e)
  | Except.ok texts =>
    match init_pipeline_fn texts with
    | Except.error e => (st, Except.error e)
    | Except.ok (qa, vs) =>
      ({ qa_pipeline := some qa, vectorstore := some vs }, Except.ok Response.render_index)

/-- URL branch of the POST handling in `index` (src/app.py lines 129-143),
also reached when no usable file was uploaded: an empty or missing
`url_or_file` flashes a no-input message; a value without an http scheme
flashes an invalid-URL message; otherwise the website is processed and the
pipeline rebuilt. -/
def index_post_url (process_website_fn : String → Except String (List Doc))
    (init_pipeline_fn : List Doc → Except String (QAChain × VectorStore))
    (st : AppState) (form : PostForm) : AppState × Except String Response :=
  match form.url_or_file with
  | some url =>
    if url = "" then
      (st, Except.ok (Response.redirect_index "No input provided. Please enter a URL or upload a file."))
    else if !(py_starts_with url "http://" || py_starts_with url "https://") then
      (st, Except.ok (Response.redirect_index "Please enter a valid URL."))
    else
      build_and_store init_pipeline_fn st (process_website_fn url)
  | none =>
    (st, Except.ok (Response.redirect_index "No input provided. Please enter a URL or upload a file."))

/-- Translation of the POST part of the `index` route (src/app.py lines
98-145). A file part with a non-empty filename takes the file branch:
unsupported extensions flash and redirect, a `.pdf` goes through
`process_pdf`, any other accepted name (necessarily `.docx`) through
`process_word_document`, then the pipeline is rebuilt; otherwise control
falls to the URL branch. The extraction and pipeline functions are the
imported chatbot functions, passed as parameters. -/
def index_post (process_pdf_fn process_word_fn process_website_fn : String → Except String (List Doc))
    (init_pipeline_fn : List Doc → Except String (QAChain × VectorStore))
    (st : AppState) (form : PostForm) : AppState × Except String Response :=
  match form.file with
  | some filename =>
    if filename = "" then
      index_post_url process_website_fn init_pipeline_fn st form
    else if !(py_ends_with filename ".pdf" || py_ends_with filename ".docx") then
      (st, Except.ok (Response.redirect_index "Unsupported file type. Please upload a PDF or Word document."))
    else
      build_and_store init_pipeline_fn st
        (if py_ends_with filename ".pdf" then process_pdf_fn filename else process_word_fn filename)
  | none => index_post_url process_website_fn init_pipeline_fn st form

/-- Translation of the `ask` route (src/app.py lines 147-162): if either
global is `None`, flash and redirect; if the submitted query is empty,
flash and redirect; otherwise call `rag_pipeline` (passed as a parameter,
as it is an import) and render its answer, propagating any exception it
raises. The handler never assigns the globals, so the state is returned
unchanged on every path. -/
def ask_handler (rag_pipeline_fn : String → QAChain → VectorStore → Except String String)
    (st : AppState) (query : String) : AppState × Except String Response :=
  match st.qa_pipeline, st.vectorstore with
  | some qa, some vs =>
    if query = "" then
      (st, Except.ok (Response.redirect_index "Please enter a question."))
    else
      match rag_pipeline_fn query qa vs with
      | Except.error e => (st, Except.error e)
      | Except.ok answer => (st, Except.ok (Response.render_answer query answer))
  | _, _ =>
    (st, Except.ok (Response.redirect_index "Please upload a document or enter a URL first."))

/-- Translation of the `clear` route (src/app.py lines 164-170): both
globals are set to `None` unconditionally, then a flash and redirect. -/
def clear_handler (_st : AppState) : AppState × Response :=
  ({ qa_pipeline := none, vectorstore := none },
    Response.redirect_index "Session cleared. Please upload a new document or enter a URL.")

/-! Concrete fixtures used to instantiate the theorems below. -/

/-- A chain whose generation call always succeeds with a fixed answer. -/
def demo_qa_chain : QAChain := ⟨fun _ => Except.ok ⟨"the answer"⟩⟩

/-- A chain whose generation call always raises. -/
def demo_failing_qa_chain : QAChain := ⟨fun _ => Except.error "GenerationServiceError"⟩

/-- A store whose similarity search returns one document. -/
def demo_vectorstore_a : VectorStore :=
  ⟨fun _ _ => [({ page_content := "alpha segment", source := "a.pdf" }, 0)]⟩

/-- A store whose similarity search returns a different document. -/
def demo_vectorstore_b : VectorStore :=
  ⟨fun _ _ => [({ page_content := "beta segment", source := "b.pdf" }, 1)]⟩

/-- A store whose similarity search returns nothing. -/
def demo_vectorstore_empty : VectorStore := ⟨fun _ _ => []⟩

/-- A Ready session state. -/
def demo_ready_state : AppState :=
  { qa_pipeline := some demo_qa_chain, vectorstore := some demo_vectorstore_a }

/-- A POST form uploading a PDF file. -/
def demo_pdf_form : PostForm := { url_or_file := none, file := some "doc.pdf" }

/-- An extraction stub that succeeds with no documents. -/
def demo_ok_process : String → Except String (List Doc) := fun _ => Except.ok []

/-- A pipeline builder stub that raises an embedding-service failure. -/
def demo_fail_pipeline : List Doc → Except String (QAChain × VectorStore) :=
  fun _ => Except.error "EmbeddingServiceError"



/-! Helper lemmas about the non-empty-retrieval branch of `rag_pipeline`. -/

theorem rag_pipeline_traced_fst (query : String) (qa_chain : QAChain) (vectorstore : VectorStore) :
    (rag_pipeline_traced query qa_chain vectorstore).1 = rag_pipeline query qa_chain vectorstore := by
  unfold rag_pipeline rag_pipeline_traced
  by_cases h : (vectorstore.similarity_search_with_score query 3).isEmpty
  · simp [h]
  · simp only [h, Bool.false_eq_true, if_false]
    cases qa_chain.invoke [("query", query)] <;> rfl

theorem rag_pipeline_eq_of_ne_nil (query : String) (qa_chain : QAChain) (vectorstore : VectorStore)
    (h : vectorstore.similarity_search_with_score query 3 ≠ []) :
    rag_pipeline query qa_chain vectorstore =
      match qa_chain.invoke [("query", query)] with
      | Except.ok response => Except.ok response.result
      | Except.error e => Except.error e := by
  unfold rag_pipeline
  have hb : (vectorstore.similarity_search_with_score query 3).isEmpty = false := by
    simpa [List.isEmpty_iff] using h
  simp [hb]

theorem rag_pipeline_traced_calls_of_ne_nil (query : String) (qa_chain : QAChain)
    (vectorstore : VectorStore)
    (h : vectorstore.similarity_search_with_score query 3 ≠ []) :
    (rag_pipeline_traced query qa_chain vectorstore).2 =
      ⟨[(query, 3)], [[("query", query)]]⟩ := by
  unfold rag_pipeline_traced
  have hb : (vectorstore.similarity_search_with_score query 3).isEmpty = false := by
    simpa [List.isEmpty_iff] using h
  simp only [hb, Bool.false_eq_true, if_false]
  cases qa_chain.invoke [("query", query)] <;> rfl

/-- C1: on a ready session, for every query with non-empty retrieval the
generation call receives only the dictionary with the single entry
`query`, and the answer does not depend on the locally computed context:
any other store whose retrieval is also non-empty yields the same result
with the same chain. -/
theorem rag_pipeline_context_never_reaches_generation (query : String) (qa_chain : QAChain)
    (vectorstore : VectorStore)
    (h : vectorstore.similarity_search_with_score query 3 ≠ []) :
    (rag_pipeline_traced query qa_chain vectorstore).2.invoke_calls = [[("query", query)]] ∧
    ∀ vectorstore2 : VectorStore,
      vectorstore2.similarity_search_with_score query 3 ≠ [] →
      rag_pipeline query qa_chain vectorstore2 = rag_pipeline query qa_chain vectorstore := by
  refine ⟨?_, ?_⟩
  · rw [rag_pipeline_traced_calls_of_ne_nil query qa_chain vectorstore h]
  · intro vectorstore2 h2
    rw [rag_pipeline_eq_of_ne_nil query qa_chain vectorstore2 h2,
      rag_pipeline_eq_of_ne_nil query qa_chain vectorstore h]

/-- Witness for C1 at concrete inputs: two stores retrieving different
documents produce the same generation input and the same answer. -/
theorem rag_pipeline_context_never_reaches_generation_witness :
    (rag_pipeline_traced "q" demo_qa_chain demo_vectorstore_a).2.invoke_calls = [[("query", "q")]] ∧
    rag_pipeline "q" demo_qa_chain demo_vectorstore_b =
      rag_pipeline "q" demo_qa_chain demo_vectorstore_a :=
  ⟨(rag_pipeline_context_never_reaches_generation "q" demo_qa_chain demo_vectorstore_a
      (by decide)).1,
   (rag_pipeline_context_never_reaches_generation "q" demo_qa_chain demo_vectorstore_a
      (by decide)).2 demo_vectorstore_b (by decide)⟩

/-- C2: on empty retrieval, `rag_pipeline` returns exactly the fallback
sentence and performs no generation call. -/
theorem rag_pipeline_empty_retrieval_fallback (query : String) (qa_chain : QAChain)
    (vectorstore : VectorStore)
    (h : vectorstore.similarity_search_with_score query 3 = []) :
    rag_pipeline query qa_chain vectorstore = Except.ok fallback_sentence ∧
    (rag_pipeline_traced query qa_chain vectorstore).2.invoke_calls = [] := by
  unfold rag_pipeline rag_pipeline_traced
  simp [h]

/-- Witness for C2 at a concrete empty store. -/
theorem rag_pipeline_empty_retrieval_fallback_witness :
    rag_pipeline "q" demo_qa_chain demo_vectorstore_empty = Except.ok fallback_sentence ∧
    (rag_pipeline_traced "q" demo_qa_chain demo_vectorstore_empty).2.invoke_calls = [] :=
  rag_pipeline_empty_retrieval_fallback "q" demo_qa_chain demo_vectorstore_empty rfl

/-- C8: with non-empty retrieval, an error raised by the generation chain
propagates out of `rag_pipeline` unchanged; it is never converted into the
fallback sentence. -/
theorem rag_pipeline_propagates_generation_error (query : String) (qa_chain : QAChain)
    (vectorstore : VectorStore) (e : String)
    (h : vectorstore.similarity_search_with_score query 3 ≠ [])
    (hgen : qa_chain.invoke [("query", query)] = Except.error e) :
    rag_pipeline query qa_chain vectorstore = Except.error e := by
  rw [rag_pipeline_eq_of_ne_nil query qa_chain vectorstore h, hgen]

/-- Witness for C8 at a concrete failing chain. -/
theorem rag_pipeline_propagates_generation_error_witness :
    rag_pipeline "q" demo_failing_qa_chain demo_vectorstore_a =
      Except.error "GenerationServiceError" :=
  rag_pipeline_propagates_generation_error "q" demo_failing_qa_chain demo_vectorstore_a
    "GenerationServiceError" (by decide) rfl

/-- C6: evidence for the divergence. Two stores whose top-3 similarity
results differ produce identical external-call payloads in the query path:
the generation call receives only the `query` entry, so the top-3 segments
of the local k=3 search are not what feeds generation (the external chain
retrieves internally with its own default). -/
theorem rag_pipeline_generation_input_ignores_top3 :
    demo_vectorstore_a.similarity_search_with_score "q" 3 ≠
      demo_vectorstore_b.similarity_search_with_score "q" 3 ∧
    (rag_pipeline_traced "q" demo_qa_chain demo_vectorstore_a).2 =
      (rag_pipeline_traced "q" demo_qa_chain demo_vectorstore_b).2 ∧
    (rag_pipeline_traced "q" demo_qa_chain demo_vectorstore_a).2.invoke_calls =
      [[("query", "q")]] := by
  decide

/-! Helper lemmas about the index handler and the extraction filters. -/

theorem index_post_url_cases (process_website_fn : String → Except String (List Doc))
    (init_pipeline_fn : List Doc → Except String (QAChain × VectorStore))
    (st : AppState) (form : PostForm) :
    (index_post_url process_website_fn init_pipeline_fn st form).1 = st ∨
    (index_post_url process_website_fn init_pipeline_fn st form).2 =
      Except.ok Response.render_index := by
  unfold index_post_url build_and_store
  repeat' split
  all_goals first | exact Or.inl rfl | exact Or.inr rfl

theorem index_post_cases
    (process_pdf_fn process_word_fn process_website_fn : String → Except String (List Doc))
    (init_pipeline_fn : List Doc → Except String (QAChain × VectorStore))
    (st : AppState) (form : PostForm) :
    (index_post process_pdf_fn process_word_fn process_website_fn init_pipeline_fn st form).1 = st ∨
    (index_post process_pdf_fn process_word_fn process_website_fn init_pipeline_fn st form).2 =
      Except.ok Response.render_index := by
  unfold index_post build_and_store
  repeat' split
  all_goals first
    | exact Or.inl rfl
    | exact Or.inr rfl
    | exact index_post_url_cases process_website_fn init_pipeline_fn st form

theorem py_strip_filter_nil (l : List String) (h : ∀ t ∈ l, py_strip t = "") :
    (l.map py_strip).filter (fun t => t != "") = [] := by
  induction l with
  | nil => rfl
  | cons hd tl ih =>
    have hhd : py_strip hd = "" := h hd (by simp)
    simp only [List.map_cons, hhd]
    rw [List.filter_cons_of_neg (by decide)]
    exact ih (fun t ht => h t (by simp [ht]))

/-- C4: on a Ready session, an ingestion attempt that raises at any stage
(extraction or pipeline construction) leaves the stored globals unchanged,
and a later ask against the old pipeline still renders an answer. -/
theorem ingestion_failure_preserves_ready_session
    (process_pdf_fn process_word_fn process_website_fn : String → Except String (List Doc))
    (init_pipeline_fn : List Doc → Except String (QAChain × VectorStore))
    (st : AppState) (form : PostForm) (e : String) (qa : QAChain) (vs : VectorStore)
    (hqa : st.qa_pipeline = some qa) (hvs : st.vectorstore = some vs)
    (hfail : (index_post process_pdf_fn process_word_fn process_website_fn
        init_pipeline_fn st form).2 = Except.error e) :
    (index_post process_pdf_fn process_word_fn process_website_fn
        init_pipeline_fn st form).1 = st ∧
    ∀ (rag_fn : String → QAChain → VectorStore → Except String String) (query answer : String),
      query ≠ "" → rag_fn query qa vs = Except.ok answer →
      ask_handler rag_fn (index_post process_pdf_fn process_word_fn process_website_fn
          init_pipeline_fn st form).1 query =
        (st, Except.ok (Response.render_answer query answer)) := by
  have hst : (index_post process_pdf_fn process_word_fn process_website_fn
      init_pipeline_fn st form).1 = st := by
    rcases index_post_cases process_pdf_fn process_word_fn process_website_fn
        init_pipeline_fn st form with h | h
    · exact h
    · rw [h] at hfail
      exact absurd hfail (by simp)
  refine ⟨hst, ?_⟩
  intro rag_fn query answer hq hr
  rw [hst]
  unfold ask_handler
  rw [hqa, hvs]
  simp [hq, hr]

/-- Witness for C4: a Ready session, a PDF upload whose pipeline rebuild
raises an embedding-service failure, and a subsequent successful ask. -/
theorem ingestion_failure_preserves_ready_session_witness :
    (index_post demo_ok_process demo_ok_process demo_ok_process demo_fail_pipeline
        demo_ready_state demo_pdf_form).1 = demo_ready_state ∧
    ask_handler rag_pipeline
        (index_post demo_ok_process demo_ok_process demo_ok_process demo_fail_pipeline
          demo_ready_state demo_pdf_form).1 "q" =
      (demo_ready_state, Except.ok (Response.render_answer "q" "the answer")) := by
  have h := ingestion_failure_preserves_ready_session demo_ok_process demo_ok_process
    demo_ok_process demo_fail_pipeline demo_ready_state demo_pdf_form "EmbeddingServiceError"
    demo_qa_chain demo_vectorstore_a rfl rfl rfl
  exact ⟨h.1, h.2 rag_pipeline "q" "the answer" (by decide) rfl⟩

/-- C5: a query on the initial Empty session, or on the session left by
the clear handler, is answered with the not-ready flash redirect, the
state is unchanged, and the result does not depend on the rag function, so
the pipeline is not invoked. -/
theorem ask_rejected_on_empty_session
    (rag_fn : String → QAChain → VectorStore → Except String String)
    (query : String) (st : AppState) :
    ask_handler rag_fn app_init_state query =
      (app_init_state,
        Except.ok (Response.redirect_index "Please upload a document or enter a URL first.")) ∧
    ask_handler rag_fn (clear_handler st).1 query =
      ((clear_handler st).1,
        Except.ok (Response.redirect_index "Please upload a document or enter a URL first.")) := by
  constructor <;> rfl

/-- C10: a POST to ask with an empty query on a Ready session redirects
with the enter-a-question flash, leaves the state unchanged, and produces
the same result for every rag function, so the pipeline is not invoked. -/
theorem ask_empty_query_redirects
    (rag_fn : String → QAChain → VectorStore → Except String String)
    (st : AppState) (qa : QAChain) (vs : VectorStore)
    (hqa : st.qa_pipeline = some qa) (hvs : st.vectorstore = some vs) :
    ask_handler rag_fn st "" =
      (st, Except.ok (Response.redirect_index "Please enter a question.")) ∧
    ∀ rag_fn2 : String → QAChain → VectorStore → Except String String,
      ask_handler rag_fn2 st "" = ask_handler rag_fn st "" := by
  have h : ∀ f : String → QAChain → VectorStore → Except String String,
      ask_handler f st "" =
        (st, Except.ok (Response.redirect_index "Please enter a question.")) := by
    intro f
    unfold ask_handler
    rw [hqa, hvs]
    rfl
  exact ⟨h rag_fn, fun f2 => (h f2).trans (h rag_fn).symm⟩

/-- Witness for C10 at the concrete Ready session. -/
theorem ask_empty_query_redirects_witness :
    ask_handler rag_pipeline demo_ready_state "" =
      (demo_ready_state, Except.ok (Response.redirect_index "Please enter a question.")) ∧
    ask_handler (fun _ _ _ => Except.error "service down") demo_ready_state "" =
      ask_handler rag_pipeline demo_ready_state "" :=
  ⟨(ask_empty_query_redirects rag_pipeline demo_ready_state demo_qa_chain demo_vectorstore_a
      rfl rfl).1,
   (ask_empty_query_redirects rag_pipeline demo_ready_state demo_qa_chain demo_vectorstore_a
      rfl rfl).2 (fun _ _ _ => Except.error "service down")⟩

/-- C9: an absent or empty GOOGLE_API_KEY environment variable makes the
module-body check raise the ValueError message at import time. -/
theorem google_api_key_required (env_value : Option String)
    (h : env_value = none ∨ env_value = some "") :
    google_api_key_check env_value =
      Except.error "Please set the GOOGLE_API_KEY in the .env file." := by
  rcases h with h | h <;> subst h <;> rfl

/-- Witness for C9 at the unset variable. -/
theorem google_api_key_required_witness :
    google_api_key_check none =
      Except.error "Please set the GOOGLE_API_KEY in the .env file." :=
  google_api_key_required none (Or.inl rfl)

/-- C7: when the extracted blocks are empty, or all empty or whitespace
after trimming, the process functions raise their no-content errors and
produce no segments. -/
theorem chunking_rejects_empty_input
    (split_documents_fn : List Doc → List Doc) (file_path url : String)
    (page_texts paragraph_texts : List String)
    (hp : page_texts = [] ∨ ∀ t ∈ page_texts, py_strip t = "")
    (hw : paragraph_texts = [] ∨ ∀ t ∈ paragraph_texts, py_strip t = "") :
    process_pdf split_documents_fn file_path page_texts =
      Except.error "No content could be read from the PDF file." ∧
    process_word_document split_documents_fn file_path paragraph_texts =
      Except.error "No content could be read from the Word document." ∧
    process_website split_documents_fn url [] =
      Except.error "No content could be fetched from the website." := by
  have hp2 : read_pdf page_texts = [] := by
    rcases hp with h | h
    · subst h; rfl
    · exact py_strip_filter_nil page_texts h
  have hw2 : read_word_document paragraph_texts = [] := by
    rcases hw with h | h
    · subst h; rfl
    · exact py_strip_filter_nil paragraph_texts h
  refine ⟨?_, ?_, rfl⟩
  · unfold process_pdf
    rw [hp2]
    rfl
  · unfold process_word_document
    rw [hw2]
    rfl

/-- Witness for C7: whitespace-only pages, no paragraphs, no scraped
content. -/
theorem chunking_rejects_empty_input_witness :
    process_pdf id "f.pdf" ["  ", ""] =
      Except.error "No content could be read from the PDF file." ∧
    process_word_document id "f.docx" [] =
      Except.error "No content could be read from the Word document." ∧
    process_website id "http://x" [] =
      Except.error "No content could be fetched from the website." :=
  chunking_rejects_empty_input id "f.pdf" "http://x" ["  ", ""] []
    (Or.inr (by decide)) (Or.inl rfl)
